import Mathlib

/-!
Shallow embedding of the `go_mcp_server_searxng` repository
(`searxng.go`: the SearXNG HTTP client; `main.go`: the MCP tool
handlers), together with theorems settling the specification claims.

Modelling conventions:
* Go strings are Lean `String`s; byte-level operations are carried out
  on `String.data` (`List Char`), which coincides with Go's byte view
  for the ASCII data these claims exercise, and is order-isomorphic on
  code points in general (UTF-8 is order-preserving).
* Go `int` is `Int`; Go `float64` (which only reaches the model as a
  decoded JSON number) is modelled as `Rat`.
* `url.Values` is an association list `List (String × String)`;
  `Values.Set`, `Values.Encode` and `url.QueryEscape` are embedded
  below following `net/url`.
* The HTTP transport is a parameter: a handler receives a stubbed
  backend `SearchParams → Except String SearchResponse`, and the
  response-processing halves of `Search`/`GetEngines` receive the raw
  `HTTPResponse`. JSON decoding (`json.Unmarshal`, Go stdlib) is a
  parameter where it is irrelevant to the claims.
-/

/-! ## Go string primitives -/

/-- Models Go `unicode.IsSpace` restricted to the Latin-1 range that the
claims exercise: `'\t'`, `'\n'`, vertical tab, form feed, `'\r'`, `' '`,
U+0085 and U+00A0.  (Go additionally accepts the Unicode `Zs` category
above U+00FF; no claim involves such characters.) -/
def goIsSpace (c : Char) : Bool :=
  c = ' ' || c = '\t' || c = '\n' || c = (Char.ofNat 0x0B) || c = (Char.ofNat 0x0C) ||
  c = '\r' || c = (Char.ofNat 0x85) || c = (Char.ofNat 0xA0)

/-- Models Go `strings.TrimSpace`: removes leading and trailing
whitespace characters. -/
def goTrimSpace (s : String) : String :=
  ⟨((s.data.dropWhile goIsSpace).reverse.dropWhile goIsSpace).reverse⟩

/-- Splits a character list at every occurrence of `sep`; always returns
at least one (possibly empty) piece.  Models Go
`strings.Split(s, sep)` for the single-character separator used by the
handlers (`","`). -/
def splitOnChar (sep : Char) : List Char → List (List Char)
  | [] => [[]]
  | c :: rest =>
    match splitOnChar sep rest, decide (c = sep) with
    | r, true => [] :: r
    | [], false => [[c]]
    | h :: t, false => (c :: h) :: t

/-- Models Go `strings.Split(s, ",")`. -/
def goSplitComma (s : String) : List String :=
  (splitOnChar ',' s.data).map fun cs => ⟨cs⟩

/-- Models Go `strings.Join(xs, ",")`. -/
def goJoinComma (xs : List String) : String :=
  String.intercalate "," xs

/-- Models Go `strings.TrimSuffix s sfx`: removes one occurrence of the
trailing `sfx` if present, otherwise returns `s` unchanged
(used by `NewSearXNGClient` with `sfx = "/"`). -/
def goTrimTrailing (s sfx : String) : String :=
  if sfx.data.isSuffixOf s.data then ⟨s.data.take (s.data.length - sfx.data.length)⟩
  else s

/-! ## `net/url` query encoding -/

/-- Byte-wise lexicographic order on strings (Go `sort.Strings`;
UTF-8 byte order coincides with code-point order). -/
def charListLe : List Char → List Char → Bool
  | [], _ => true
  | _ :: _, [] => false
  | a :: as, b :: bs =>
    if a.toNat < b.toNat then true
    else if b.toNat < a.toNat then false
    else charListLe as bs

/-- String comparison used when `url.Values.Encode` sorts its keys. -/
def strLe (a b : String) : Bool := charListLe a.data b.data

/-- The UTF-8 byte sequence of a character (each byte as a `Nat`). -/
def utf8Bytes (c : Char) : List Nat :=
  let n := c.toNat
  if n < 0x80 then [n]
  else if n < 0x800 then [0xC0 + n / 0x40, 0x80 + n % 0x40]
  else if n < 0x10000 then
    [0xE0 + n / 0x1000, 0x80 + n / 0x40 % 0x40, 0x80 + n % 0x40]
  else
    [0xF0 + n / 0x40000, 0x80 + n / 0x1000 % 0x40, 0x80 + n / 0x40 % 0x40,
     0x80 + n % 0x40]

/-- Upper-case hexadecimal digit, as used by `net/url` percent-escaping. -/
def hexUpper (n : Nat) : Char :=
  if n < 10 then Char.ofNat (48 + n) else Char.ofNat (55 + n)

/-- `%XX` escape of one byte. -/
def percentByte (b : Nat) : String :=
  ⟨['%', hexUpper (b / 16), hexUpper (b % 16)]⟩

/-- Whether a (ASCII) character is left unescaped by Go
`url.QueryEscape`: alphanumerics and `-`, `_`, `.`, `~`. -/
def queryUnescaped (c : Char) : Bool :=
  ('A' ≤ c && c ≤ 'Z') || ('a' ≤ c && c ≤ 'z') || ('0' ≤ c && c ≤ '9') ||
  c = '-' || c = '_' || c = '.' || c = '~'

/-- Models Go `url.QueryEscape`: unreserved characters kept, space
becomes `+`, every other byte percent-escaped.  (Go iterates over
bytes; for ASCII the byte is the character, and every byte of a
non-ASCII character's UTF-8 encoding is ≥ 0x80, hence escaped, so the
per-character formulation below agrees with Go's per-byte loop.) -/
def queryEscape (s : String) : String :=
  String.join (s.data.map fun c =>
    if queryUnescaped c then ⟨[c]⟩
    else if c = ' ' then "+"
    else String.join ((utf8Bytes c).map percentByte))

/-- `url.Values`, as an association list (one value per key: the client
only uses `Values.Set`, never `Add`). -/
def Values := List (String × String)

/-- Models `url.Values.Set`: replaces the value under `k`, or appends a
new binding. -/
def valuesSet (vs : List (String × String)) (k v : String) :
    List (String × String) :=
  if vs.any (fun kv => kv.1 = k) then
    vs.map fun kv => if kv.1 = k then (k, v) else kv
  else vs ++ [(k, v)]

/-- Insertion step of the key sort performed by `Values.Encode`. -/
def insertByKey (kv : String × String) :
    List (String × String) → List (String × String)
  | [] => [kv]
  | x :: xs => if strLe kv.1 x.1 then kv :: x :: xs else x :: insertByKey kv xs

/-- Sorts bindings by key (the client never produces duplicate keys, so
any correct sort agrees with Go's). -/
def sortValues : List (String × String) → List (String × String)
  | [] => []
  | x :: xs => insertByKey x (sortValues xs)

/-- Models `url.Values.Encode`: keys sorted, each binding rendered as
`escape(k)=escape(v)`, joined with `&`. -/
def valuesEncode (vs : List (String × String)) : String :=
  String.intercalate "&"
    ((sortValues vs).map fun kv => queryEscape kv.1 ++ "=" ++ queryEscape kv.2)

/-- Whether the query carries a binding for `k`. -/
def hasKey (vs : List (String × String)) (k : String) : Bool :=
  vs.any fun kv => kv.1 = k

/-- The value bound to `k`, if any. -/
def getVal (vs : List (String × String)) (k : String) : Option String :=
  (vs.find? fun kv => kv.1 = k).map fun kv => kv.2

/-! ## The SearXNG client (`searxng.go`) -/

/-- `SearXNGClient` (the HTTP transport itself — `http.Client`, its
30-second timeout — lives outside the model; only the configured base
URL determines the requests). -/
structure SearXNGClient where
  BaseURL : String

/-- `NewSearXNGClient`: trims one trailing `/` from the base URL. -/
def NewSearXNGClient (baseURL : String) : SearXNGClient :=
  { BaseURL := goTrimTrailing baseURL "/" }

/-- `SearchParams` (Go struct; Go `int` is `Int`). -/
structure SearchParams where
  Query : String
  Categories : List String
  Engines : List String
  Language : String
  PageNo : Int
  TimeRange : String
  SafeSearch : Int
deriving DecidableEq

/-- Models Go `strconv.Itoa`. -/
def goItoa (n : Int) : String := toString n

/-- The `url.Values` built by `Search` before encoding — the chain of
`values.Set` calls of `searxng.go`, with each `if` guard as in the
source. -/
def searchQueryValues (p : SearchParams) : List (String × String) :=
  let v := valuesSet [] "q" p.Query
  let v := valuesSet v "format" "json"
  let v := if p.Categories.length > 0 then
             valuesSet v "categories" (goJoinComma p.Categories) else v
  let v := if p.Engines.length > 0 then
             valuesSet v "engines" (goJoinComma p.Engines) else v
  let v := if p.Language ≠ "" then valuesSet v "language" p.Language else v
  let v := if p.PageNo > 0 then valuesSet v "pageno" (goItoa p.PageNo) else v
  let v := if p.TimeRange ≠ "" then valuesSet v "time_range" p.TimeRange else v
  let v := if p.SafeSearch ≥ 0 ∧ p.SafeSearch ≤ 2 then
             valuesSet v "safesearch" (goItoa p.SafeSearch) else v
  v

/-- The URL `Search` requests: `<BaseURL>/search?<encoded values>`. -/
def searchRequestURL (c : SearXNGClient) (p : SearchParams) : String :=
  c.BaseURL ++ "/search" ++ "?" ++ valuesEncode (searchQueryValues p)

/-- The URL `GetEngines` requests: `<BaseURL>/config`. -/
def configRequestURL (c : SearXNGClient) : String :=
  c.BaseURL ++ "/config"

/-! ## Dynamic tool-call arguments (`map[string]interface{}`) -/

/-- A decoded JSON argument value as Go's `interface\x7b\x7d` holds it:
strings, numbers (`float64`, modelled as `Rat`), booleans, `nil`. -/
inductive GoVal where
  | str (s : String)
  | num (x : Rat)
  | boolV (b : Bool)
  | null
deriving DecidableEq

/-- `request.Params.Arguments`: a key → value map; `none` means the key
is absent. -/
def Args := String → Option GoVal

/-- Go type assertion `v.(string)` on a map lookup: succeeds exactly
when the key is present with a string value. -/
def asString : Option GoVal → Option String
  | some (.str s) => some s
  | _ => none

/-- Go type assertion `v.(float64)` on a map lookup. -/
def asNumber : Option GoVal → Option Rat
  | some (.num x) => some x
  | _ => none

/-- Go conversion `int(f)` of a `float64`: truncation toward zero
(`Int.div` is T-division, and a rational's denominator is positive). -/
def floatToInt (x : Rat) : Int := x.num.tdiv x.den

/-- Overrides one key of an argument map (`none` removes it). -/
def setArg (a : Args) (k : String) (v : Option GoVal) : Args :=
  fun k2 => if k2 = k then v else a k2

/-! ## JSON values and `json.MarshalIndent` (`encoding/json`) -/

/-- The JSON trees the handlers serialize.  Go `int` renders via
`int`, Go `float64` via `num`; maps are sorted before they become
`obj` fields (`encoding/json` sorts map keys), struct fields keep
declaration order. -/
inductive Json where
  | str (s : String)
  | int (n : Int)
  | num (x : Rat)
  | arr (xs : List Json)
  | obj (fields : List (String × Json))

/-- Lower-case hexadecimal digit (`encoding/json` uses lower case). -/
def hexLower (n : Nat) : Char :=
  if n < 10 then Char.ofNat (48 + n) else Char.ofNat (87 + n)

/-- One character of a JSON string, escaped as Go `encoding/json` does
with its default HTML escaping: `"` and `\` backslash-escaped, `\n`,
`\r`, `\t` short-escaped, other control characters, `<`, `>`, `&`,
U+2028 and U+2029 as `\u`-escapes. -/
def jsonEscapeChar (c : Char) : String :=
  if c = '"' then "\\\""
  else if c = '\\' then "\\\\"
  else if c = '\n' then "\\n"
  else if c = '\r' then "\\r"
  else if c = '\t' then "\\t"
  else if c.toNat < 0x20 then
    ⟨['\\', 'u', '0', '0', hexLower (c.toNat / 16), hexLower (c.toNat % 16)]⟩
  else if c = '<' then "\\u003c"
  else if c = '>' then "\\u003e"
  else if c = '&' then "\\u0026"
  else if c.toNat = 0x2028 then "\\u2028"
  else if c.toNat = 0x2029 then "\\u2029"
  else ⟨[c]⟩

/-- A JSON string literal, quoted and escaped. -/
def jsonQuote (s : String) : String :=
  "\"" ++ String.join (s.data.map jsonEscapeChar) ++ "\""

/-- Rendering of the numeric `score` field.  Go formats a `float64` by
strconv's shortest round-trip decimal algorithm, which has no exact
counterpart over `Rat`; integral values render identically, and no
claim depends on non-integral numeric rendering. -/
def jsonNumberText (x : Rat) : String :=
  if x.den = 1 then toString x.num
  else toString x.num ++ "e0/" ++ toString (x.den : Int)

/-- The two-space indentation prefix at nesting depth `d`
(`MarshalIndent` is called with prefix `""` and indent `"  "`). -/
def indent2 (d : Nat) : String := String.join (List.replicate d "  ")

mutual

/-- Models `json.MarshalIndent(v, "", "  ")` at nesting depth `d`. -/
def jsonRender (d : Nat) : Json → String
  | .str s => jsonQuote s
  | .int n => toString n
  | .num x => jsonNumberText x
  | .arr [] => "[]"
  | .arr (x :: xs) =>
      "[\n" ++ jsonRenderItems (d + 1) x xs ++ "\n" ++ indent2 d ++ "]"
  | .obj [] => "\x7b\x7d"
  | .obj ((k, v) :: fs) =>
      "\x7b\n" ++ jsonRenderFields (d + 1) k v fs ++ "\n" ++ indent2 d ++ "\x7d"
termination_by j => sizeOf j

/-- Comma-and-newline separated array items, each indented. -/
def jsonRenderItems (d : Nat) : Json → List Json → String
  | x, [] => indent2 d ++ jsonRender d x
  | x, y :: ys => indent2 d ++ jsonRender d x ++ ",\n" ++ jsonRenderItems d y ys
termination_by x xs => sizeOf x + sizeOf xs

/-- Comma-and-newline separated object fields, each indented, rendered
as `"key": value`. -/
def jsonRenderFields (d : Nat) : String → Json → List (String × Json) → String
  | k, v, [] => indent2 d ++ jsonQuote k ++ ": " ++ jsonRender d v
  | k, v, (k2, v2) :: gs =>
      indent2 d ++ jsonQuote k ++ ": " ++ jsonRender d v ++ ",\n" ++
      jsonRenderFields d k2 v2 gs
termination_by _ v fs => sizeOf v + sizeOf fs

end

/-- `json.MarshalIndent(v, "", "  ")`. -/
def jsonMarshalIndent (j : Json) : String := jsonRender 0 j

/-! ## Search responses and their serialization -/

/-- `SearchResult` (Go struct; `Score` is `float64,omitempty`,
`PublishedDate` is `string,omitempty`). -/
structure SearchResult where
  Title : String
  URL : String
  Content : String
  Engine : String
  Category : String
  Score : Rat
  PublishedDate : String

/-- `SearchResponse` (Go struct; `Infoboxes` is `[]interface\x7b\x7d`,
modelled as opaque JSON trees). -/
structure SearchResponse where
  Query : String
  NumberOfResults : Int
  Results : List SearchResult
  Answers : List String
  Corrections : List String
  Infoboxes : List Json
  Suggestions : List String

/-- Marshalling of one `SearchResult`: struct fields in declaration
order, `omitempty` dropping a zero `Score` and an empty
`PublishedDate`. -/
def searchResultToJson (r : SearchResult) : Json :=
  .obj ([("title", .str r.Title), ("url", .str r.URL),
         ("content", .str r.Content), ("engine", .str r.Engine),
         ("category", .str r.Category)] ++
        (if r.Score = 0 then [] else [("score", .num r.Score)]) ++
        (if r.PublishedDate = "" then []
         else [("publishedDate", .str r.PublishedDate)]))

/-- Marshalling of a `SearchResponse` (the image/news handlers
re-serialize it verbatim): struct fields in declaration order, each
`omitempty` slice dropped when empty. -/
def searchResponseToJson (r : SearchResponse) : Json :=
  .obj ([("query", .str r.Query),
         ("number_of_results", .int r.NumberOfResults),
         ("results", .arr (r.Results.map searchResultToJson))] ++
        (if r.Answers = [] then []
         else [("answers", .arr (r.Answers.map Json.str))]) ++
        (if r.Corrections = [] then []
         else [("corrections", .arr (r.Corrections.map Json.str))]) ++
        (if r.Infoboxes.isEmpty then [] else [("infoboxes", .arr r.Infoboxes)]) ++
        (if r.Suggestions = [] then []
         else [("suggestions", .arr (r.Suggestions.map Json.str))]))

/-! ## Response processing of `Search` / `GetEngines`

The HTTP round trip is stubbed: these functions receive the backend's
raw response and a JSON decoder (`json.Unmarshal`, Go stdlib, which no
claim inspects), and perform the status check and error construction of
`searxng.go`. -/

/-- A raw backend HTTP response. -/
structure HTTPResponse where
  StatusCode : Int
  Body : String

/-- The post-transport half of `Search`: a non-200 status yields
`"HTTP error <code>: <body>"`; otherwise the body is decoded. -/
def searchHandleResponse (decode : String → Except String SearchResponse)
    (resp : HTTPResponse) : Except String SearchResponse :=
  if resp.StatusCode ≠ 200 then
    .error ("HTTP error " ++ goItoa resp.StatusCode ++ ": " ++ resp.Body)
  else decode resp.Body

/-- The post-transport half of `GetEngines`: a non-200 status yields
`"HTTP error <code>"` (without the body); otherwise the body is decoded
into the opaque config mapping. -/
def getEnginesHandleResponse (decode : String → Except String Json)
    (resp : HTTPResponse) : Except String Json :=
  if resp.StatusCode ≠ 200 then
    .error ("HTTP error " ++ goItoa resp.StatusCode)
  else decode resp.Body

/-! ## The MCP tool handlers (`main.go`)

Each handler takes the argument map and a stubbed backend (the
`searxngClient.Search` round trip) and returns either an error string
or the textual tool-result payload. -/

/-- The `SearchParams` built by `searxngSearchHandler` from the
argument map, given the already-extracted `query` — the sequence of
optional-argument coercions of `main.go`. -/
def generalParams (a : Args) (query : String) : SearchParams :=
  let p : SearchParams :=
    { Query := query, Categories := ["general"], Engines := ["google"],
      Language := "en", PageNo := 0, TimeRange := "", SafeSearch := 0 }
  let p := match asString (a "categories") with
    | some s =>
        if s ≠ "" then { p with Categories := (goSplitComma s).map goTrimSpace }
        else p
    | none => p
  let p := match asString (a "engines") with
    | some s =>
        if s ≠ "" then { p with Engines := (goSplitComma s).map goTrimSpace }
        else p
    | none => p
  let p := match asString (a "language") with
    | some s => if s ≠ "" then { p with Language := s } else p
    | none => p
  let p := match asNumber (a "page") with
    | some x => { p with PageNo := floatToInt x }
    | none => p
  let p := match asString (a "time_range") with
    | some s => { p with TimeRange := s }
    | none => p
  let p := match asNumber (a "safe_search") with
    | some x => { p with SafeSearch := floatToInt x }
    | none => p
  p

/-- The curated response map built by `searxngSearchHandler` (before
`encoding/json` sorts the map keys): `query`, `number_of_results` and
`results` always; `answers`, `suggestions`, `corrections` only when
non-empty; `infoboxes` never. -/
def generalResponseFields (r : SearchResponse) : List (String × Json) :=
  let m := [("query", Json.str r.Query),
            ("number_of_results", Json.int r.NumberOfResults),
            ("results", Json.arr (r.Results.map searchResultToJson))]
  let m := if r.Answers.length > 0 then
             m ++ [("answers", Json.arr (r.Answers.map Json.str))] else m
  let m := if r.Suggestions.length > 0 then
             m ++ [("suggestions", Json.arr (r.Suggestions.map Json.str))] else m
  let m := if r.Corrections.length > 0 then
             m ++ [("corrections", Json.arr (r.Corrections.map Json.str))] else m
  m

/-- Insertion step of the map-key sort `encoding/json` performs. -/
def insertFieldByKey (kv : String × Json) :
    List (String × Json) → List (String × Json)
  | [] => [kv]
  | x :: xs => if strLe kv.1 x.1 then kv :: x :: xs else x :: insertFieldByKey kv xs

/-- `encoding/json` marshals a Go map with its keys sorted. -/
def sortFieldsByKey : List (String × Json) → List (String × Json)
  | [] => []
  | x :: xs => insertFieldByKey x (sortFieldsByKey xs)

/-- `searxngSearchHandler`: validates `query`, builds the params,
calls the backend, and serializes the curated response map with
two-space indentation. -/
def searxngSearchHandler (a : Args)
    (backend : SearchParams → Except String SearchResponse) :
    Except String String :=
  match asString (a "query") with
  | none => .error "query must be a string"
  | some query =>
    match backend (generalParams a query) with
    | .error e => .error ("search error: " ++ e)
    | .ok result =>
        .ok (jsonMarshalIndent (.obj (sortFieldsByKey (generalResponseFields result))))

/-- The `SearchParams` built by `searxngImageSearchHandler`: categories
pinned to `["images"]`, engines defaulting to `["google images"]`, only
the `engines` and `page` arguments read. -/
def imageParams (a : Args) (query : String) : SearchParams :=
  let p : SearchParams :=
    { Query := query, Categories := ["images"], Engines := ["google images"],
      Language := "en", PageNo := 0, TimeRange := "", SafeSearch := 0 }
  let p := match asString (a "engines") with
    | some s =>
        if s ≠ "" then { p with Engines := (goSplitComma s).map goTrimSpace }
        else p
    | none => p
  let p := match asNumber (a "page") with
    | some x => { p with PageNo := floatToInt x }
    | none => p
  p

/-- `searxngImageSearchHandler`: validates `query`, builds the params,
calls the backend, and re-serializes the full `SearchResponse`. -/
def searxngImageSearchHandler (a : Args)
    (backend : SearchParams → Except String SearchResponse) :
    Except String String :=
  match asString (a "query") with
  | none => .error "query must be a string"
  | some query =>
    match backend (imageParams a query) with
    | .error e => .error ("image search error: " ++ e)
    | .ok result => .ok (jsonMarshalIndent (searchResponseToJson result))

/-- The `SearchParams` built by `searxngNewsSearchHandler`: categories
pinned to `["news"]`, engines pinned to `["google news"]`, the
`time_range`, `language` and `page` arguments read. -/
def newsParams (a : Args) (query : String) : SearchParams :=
  let p : SearchParams :=
    { Query := query, Categories := ["news"], Engines := ["google news"],
      Language := "en", PageNo := 0, TimeRange := "", SafeSearch := 0 }
  let p := match asString (a "time_range") with
    | some s => { p with TimeRange := s }
    | none => p
  let p := match asString (a "language") with
    | some s => if s ≠ "" then { p with Language := s } else p
    | none => p
  let p := match asNumber (a "page") with
    | some x => { p with PageNo := floatToInt x }
    | none => p
  p

/-- `searxngNewsSearchHandler`: validates `query`, builds the params,
calls the backend, and re-serializes the full `SearchResponse`. -/
def searxngNewsSearchHandler (a : Args)
    (backend : SearchParams → Except String SearchResponse) :
    Except String String :=
  match asString (a "query") with
  | none => .error "query must be a string"
  | some query =>
    match backend (newsParams a query) with
    | .error e => .error ("news search error: " ++ e)
    | .ok result => .ok (jsonMarshalIndent (searchResponseToJson result))

/-- Concrete argument map `\x7bquery: "cats"\x7d`. -/
def argsOnlyQuery : Args :=
  fun k => if k = "query" then some (GoVal.str "cats") else none

/-- Concrete argument map `\x7bquery: ""\x7d` (empty query string). -/
def argsEmptyQuery : Args :=
  fun k => if k = "query" then some (GoVal.str "") else none

/-- Concrete argument map exercising the optional-argument coercions:
`query`, `categories`, `engines` and `page` all present. -/
def argsCoercion : Args := fun k =>
  if k = "query" then some (GoVal.str "dogs")
  else if k = "categories" then some (GoVal.str " general , news ")
  else if k = "engines" then some (GoVal.str "bing, brave")
  else if k = "page" then some (GoVal.num 2)
  else none

/-- Whether a dynamic value is a string (Go `v.(string)` succeeds). -/
def isStr : GoVal → Bool
  | .str _ => true
  | _ => false

/-- Whether a dynamic value is a number (Go `v.(float64)` succeeds). -/
def isNum : GoVal → Bool
  | .num _ => true
  | _ => false

/-- Models Go `strings.Contains` on the byte/character level: whether
`sub` occurs contiguously inside `l`. -/
def listContainsSub (l sub : List Char) : Bool :=
  l.tails.any fun t => sub.isPrefixOf t

/-- A stubbed backend search result. -/
def stubResult : SearchResult :=
  { Title := "T", URL := "U", Content := "C", Engine := "google",
    Category := "general", Score := 0, PublishedDate := "" }

/-- A stubbed decoded backend response (one result, no
answers/suggestions/corrections/infoboxes). -/
def stubResponse : SearchResponse :=
  { Query := "cats", NumberOfResults := 1, Results := [stubResult],
    Answers := [], Corrections := [], Infoboxes := [], Suggestions := [] }

theorem asString_of_not_str (v : GoVal) (h : isStr v = false) :
    asString (some v) = none := by
  cases v <;> simp_all [isStr, asString]

theorem asString_none : asString none = none := rfl

theorem asNumber_none : asNumber none = none := rfl

theorem asNumber_of_not_num (v : GoVal) (h : isNum v = false) :
    asNumber (some v) = none := by
  cases v <;> simp_all [isNum, asNumber]

/-! ## Association-list lemmas for the query builder -/

theorem find_replace_self (k v : String) :
    ∀ vs : List (String × String), vs.any (fun kv => kv.1 = k) = true →
      (vs.map fun kv => if kv.1 = k then (k, v) else kv).find?
        (fun kv => kv.1 = k) = some (k, v)
  | [], h => by simp at h
  | x :: xs, h => by
      by_cases hx : x.1 = k
      · simp [List.find?, hx]
      · have hxs : xs.any (fun kv => kv.1 = k) = true := by
          simpa [hx] using h
        simp [List.find?, hx, find_replace_self k v xs hxs]

theorem find_replace_other (k v k2 : String) (h : k2 ≠ k) :
    ∀ vs : List (String × String),
      (vs.map fun kv => if kv.1 = k then (k, v) else kv).find?
        (fun kv => kv.1 = k2) = vs.find? (fun kv => kv.1 = k2)
  | [] => rfl
  | x :: xs => by
      by_cases hx : x.1 = k
      · have hx2 : ¬ x.1 = k2 := by rw [hx]; exact fun hh => h hh.symm
        simp [List.find?, hx, Ne.symm h, hx2, find_replace_other k v k2 h xs]
      · by_cases hx2 : x.1 = k2
        · simp [List.find?, hx, hx2, h]
        · simp [List.find?, hx, hx2, find_replace_other k v k2 h xs]

theorem getVal_valuesSet_self (vs : List (String × String)) (k v : String) :
    getVal (valuesSet vs k v) k = some v := by
  unfold valuesSet getVal
  split
  · next h => rw [find_replace_self k v vs h]; rfl
  · next h =>
    have hnone : vs.find? (fun kv => kv.1 = k) = none := by
      rw [List.find?_eq_none]
      intro x hx hpx
      exact h (List.any_eq_true.mpr ⟨x, hx, hpx⟩)
    rw [List.find?_append, hnone]
    simp [List.find?]

theorem getVal_valuesSet_other (vs : List (String × String)) (k v k2 : String)
    (h : k2 ≠ k) : getVal (valuesSet vs k v) k2 = getVal vs k2 := by
  unfold valuesSet getVal
  split
  · rw [find_replace_other k v k2 h vs]
  · rw [List.find?_append]
    simp [List.find?, Ne.symm h]

theorem getVal_if (c : Prop) [Decidable c] (a b : List (String × String))
    (k : String) :
    getVal (if c then a else b) k = if c then getVal a k else getVal b k := by
  split <;> rfl

theorem getVal_nil (k : String) : getVal [] k = none := rfl

/-! ## Claim theorems -/

/-- C1: for every `SearchParams` value, the query string built by
`Search` contains `q` (bound to the query) and `format=json`, and each
optional parameter appears iff its inclusion condition holds:
`categories` iff the categories list is non-empty (comma-joined),
`engines` iff the engines list is non-empty (comma-joined), `language`
iff the language is non-empty, `pageno` iff `PageNo > 0`, `time_range`
iff the time range is non-empty, and `safesearch` iff
`0 ≤ SafeSearch ≤ 2` — so `SafeSearch = 3` is omitted while
`SafeSearch = 0` is included, as witnessed at the two boundary
parameter values. -/
theorem c1_search_query_string_parameters :
    (∀ p : SearchParams,
      getVal (searchQueryValues p) "q" = some p.Query ∧
      getVal (searchQueryValues p) "format" = some "json" ∧
      getVal (searchQueryValues p) "categories" =
        (if p.Categories ≠ [] then some (goJoinComma p.Categories) else none) ∧
      getVal (searchQueryValues p) "engines" =
        (if p.Engines ≠ [] then some (goJoinComma p.Engines) else none) ∧
      getVal (searchQueryValues p) "language" =
        (if p.Language ≠ "" then some p.Language else none) ∧
      getVal (searchQueryValues p) "pageno" =
        (if p.PageNo > 0 then some (goItoa p.PageNo) else none) ∧
      getVal (searchQueryValues p) "time_range" =
        (if p.TimeRange ≠ "" then some p.TimeRange else none) ∧
      getVal (searchQueryValues p) "safesearch" =
        (if 0 ≤ p.SafeSearch ∧ p.SafeSearch ≤ 2 then some (goItoa p.SafeSearch)
         else none)) ∧
    getVal (searchQueryValues
      { Query := "x", Categories := [], Engines := [], Language := "",
        PageNo := 0, TimeRange := "", SafeSearch := 3 }) "safesearch" = none ∧
    getVal (searchQueryValues
      { Query := "x", Categories := [], Engines := [], Language := "",
        PageNo := 0, TimeRange := "", SafeSearch := 0 }) "safesearch" =
      some "0" := by
  refine ⟨fun p => ⟨?_, ?_, ?_, ?_, ?_, ?_, ?_, ?_⟩, by decide, by decide⟩ <;>
    simp [searchQueryValues, getVal_if, getVal_valuesSet_self,
      getVal_valuesSet_other, getVal_nil, List.length_pos]

/-- C4 counterexample: for the tool call `searxng_search(query="cats")`
with no other arguments, the constructed query string does NOT consist
only of `q`, `format`, `categories`, `engines`, `language`: the handler
leaves `SafeSearch` at its zero value, which lies in `[0, 2]`, so a
sixth parameter `safesearch=0` is also present. -/
theorem c4_counterexample_safesearch_present :
    getVal (searchQueryValues (generalParams argsOnlyQuery "cats"))
      "safesearch" = some "0" := by decide

/-- C4 as amended: a general-search tool call with argument map
`\x7bquery: "cats"\x7d` and no other arguments issues a GET request to
`<base>/search` whose query string consists exactly of `q=cats`,
`format=json`, `categories=general`, `engines=google`, `language=en`
and `safesearch=0`, with no other parameters present (shown both as
the exact binding list and as the full encoded request URL for the
default base URL). -/
theorem c4_amended_default_search_request :
    searchQueryValues (generalParams argsOnlyQuery "cats") =
      [("q", "cats"), ("format", "json"), ("categories", "general"),
       ("engines", "google"), ("language", "en"), ("safesearch", "0")] ∧
    searchRequestURL (NewSearXNGClient "http://127.0.0.1:8080")
      (generalParams argsOnlyQuery "cats") =
      "http://127.0.0.1:8080/search?categories=general&engines=google&format=json&language=en&q=cats&safesearch=0" := by
  constructor <;> decide

/-- C9: the `q` parameter is always present in the search query string,
even for the empty query; a handler given `query = ""` raises no input
error, proceeds to the backend call, and the request carries `q` bound
to the empty string. -/
theorem c9_empty_query_still_sent :
    (∀ p : SearchParams, getVal (searchQueryValues p) "q" = some p.Query) ∧
    (∀ backend : SearchParams → Except String SearchResponse,
      searxngSearchHandler argsEmptyQuery backend =
      match backend (generalParams argsEmptyQuery "") with
      | .error e => .error ("search error: " ++ e)
      | .ok result =>
          .ok (jsonMarshalIndent
            (.obj (sortFieldsByKey (generalResponseFields result))))) ∧
    getVal (searchQueryValues (generalParams argsEmptyQuery ""))
      "q" = some "" := by
  refine ⟨fun p => ?_, fun backend => rfl, by decide⟩
  simp [searchQueryValues, getVal_if, getVal_valuesSet_self,
    getVal_valuesSet_other, getVal_nil]

/-- C10: `NewSearXNGClient` strips a single trailing slash from the
base URL, `Search` requests `<trimmed base>/search?…` and `GetEngines`
requests `<trimmed base>/config`, and a base URL given with or without
one trailing slash yields the same request URLs. -/
theorem c10_base_url_trailing_slash :
    (∀ b : String, (NewSearXNGClient (b ++ "/")).BaseURL = b) ∧
    (∀ b : String, "/".data.isSuffixOf b.data = false →
      (NewSearXNGClient b).BaseURL = b) ∧
    (∀ (b : String) (p : SearchParams),
      searchRequestURL (NewSearXNGClient b) p =
        goTrimTrailing b "/" ++ "/search" ++ "?" ++
          valuesEncode (searchQueryValues p) ∧
      configRequestURL (NewSearXNGClient b) = goTrimTrailing b "/" ++ "/config") ∧
    (∀ b : String, "/".data.isSuffixOf b.data = false →
      (∀ p : SearchParams,
        searchRequestURL (NewSearXNGClient (b ++ "/")) p =
          searchRequestURL (NewSearXNGClient b) p) ∧
      configRequestURL (NewSearXNGClient (b ++ "/")) =
        configRequestURL (NewSearXNGClient b)) := by
  have hstrip : ∀ b : String, (NewSearXNGClient (b ++ "/")).BaseURL = b := by
    intro b
    show goTrimTrailing (b ++ "/") "/" = b
    unfold goTrimTrailing
    rw [if_pos]
    · simp
    · simp
  have hkeep : ∀ b : String, "/".data.isSuffixOf b.data = false →
      (NewSearXNGClient b).BaseURL = b := by
    intro b h
    show goTrimTrailing b "/" = b
    unfold goTrimTrailing
    rw [if_neg]
    simp [h]
  refine ⟨hstrip, hkeep, fun b p => ⟨rfl, rfl⟩, fun b h => ?_⟩
  refine ⟨fun p => ?_, ?_⟩ <;>
    simp [searchRequestURL, configRequestURL, hstrip b, hkeep b h]

/-- C10 witness: the trailing-slash equations applied at the concrete
base URL `"http://x"` (which has no trailing slash). -/
theorem c10_base_url_trailing_slash_witness :
    (NewSearXNGClient "http://x").BaseURL = "http://x" ∧
    configRequestURL (NewSearXNGClient ("http://x" ++ "/")) =
      configRequestURL (NewSearXNGClient "http://x") :=
  ⟨c10_base_url_trailing_slash.2.1 "http://x" (by decide),
   (c10_base_url_trailing_slash.2.2.2 "http://x" (by decide)).2⟩

/-! ## Closed forms of the three parameter builders -/

set_option maxHeartbeats 1000000 in
theorem generalParams_eq (a : Args) (q : String) :
    generalParams a q =
      { Query := q,
        Categories := match asString (a "categories") with
          | some s => if s ≠ "" then (goSplitComma s).map goTrimSpace
                      else ["general"]
          | none => ["general"],
        Engines := match asString (a "engines") with
          | some s => if s ≠ "" then (goSplitComma s).map goTrimSpace
                      else ["google"]
          | none => ["google"],
        Language := match asString (a "language") with
          | some s => if s ≠ "" then s else "en"
          | none => "en",
        PageNo := match asNumber (a "page") with
          | some x => floatToInt x
          | none => 0,
        TimeRange := match asString (a "time_range") with
          | some s => s
          | none => "",
        SafeSearch := match asNumber (a "safe_search") with
          | some x => floatToInt x
          | none => 0 } := by
  unfold generalParams
  cases asString (a "categories") <;> cases asString (a "engines") <;>
    cases asString (a "language") <;> cases asNumber (a "page") <;>
    cases asString (a "time_range") <;> cases asNumber (a "safe_search") <;>
    (repeat' split) <;> rfl

set_option maxHeartbeats 1000000 in
theorem imageParams_eq (a : Args) (q : String) :
    imageParams a q =
      { Query := q,
        Categories := ["images"],
        Engines := match asString (a "engines") with
          | some s => if s ≠ "" then (goSplitComma s).map goTrimSpace
                      else ["google images"]
          | none => ["google images"],
        Language := "en",
        PageNo := match asNumber (a "page") with
          | some x => floatToInt x
          | none => 0,
        TimeRange := "",
        SafeSearch := 0 } := by
  unfold imageParams
  cases asString (a "engines") <;> cases asNumber (a "page") <;>
    (repeat' split) <;> rfl

set_option maxHeartbeats 1000000 in
theorem newsParams_eq (a : Args) (q : String) :
    newsParams a q =
      { Query := q,
        Categories := ["news"],
        Engines := ["google news"],
        Language := match asString (a "language") with
          | some s => if s ≠ "" then s else "en"
          | none => "en",
        PageNo := match asNumber (a "page") with
          | some x => floatToInt x
          | none => 0,
        TimeRange := match asString (a "time_range") with
          | some s => s
          | none => "",
        SafeSearch := 0 } := by
  unfold newsParams
  cases asString (a "time_range") <;> cases asString (a "language") <;>
    cases asNumber (a "page") <;> (repeat' split) <;> rfl

/-- C5: a string-typed `categories`/`engines` argument is split on
commas with each element trimmed of surrounding whitespace (so
`" general , news "` coerces to `["general", "news"]`); an empty
string falls back to the variant's default list; and a numeric `page`
argument is truncated toward zero to an integer. -/
theorem c5_argument_coercion :
    (∀ (a : Args) (q s : String), asString (a "categories") = some s →
      (generalParams a q).Categories =
        if s = "" then ["general"] else (goSplitComma s).map goTrimSpace) ∧
    (∀ (a : Args) (q s : String), asString (a "engines") = some s →
      (generalParams a q).Engines =
        if s = "" then ["google"] else (goSplitComma s).map goTrimSpace) ∧
    (∀ (a : Args) (q s : String), asString (a "engines") = some s →
      (imageParams a q).Engines =
        if s = "" then ["google images"] else (goSplitComma s).map goTrimSpace) ∧
    (goSplitComma " general , news ").map goTrimSpace = ["general", "news"] ∧
    (∀ (a : Args) (q : String) (x : Rat), asNumber (a "page") = some x →
      (generalParams a q).PageNo = floatToInt x) ∧
    floatToInt (7 / 2 : Rat) = 3 ∧ floatToInt (-(7 / 2) : Rat) = -3 := by
  refine ⟨?_, ?_, ?_, by decide, ?_,
    by norm_num [floatToInt]; decide, by norm_num [floatToInt]; decide⟩ <;>
    (intro a q s h; simp [generalParams_eq, imageParams_eq, h, ite_not])

/-- C7: the image-search handler honors only the `engines` and `page`
optional arguments — any `categories`, `language`, `time_range` or
`safe_search` argument (whatever its value) leaves the constructed
`SearchParams` unchanged; the categories are always `["images"]`, the
engines default to `["google images"]` when no string `engines`
argument is given, and no time range is carried. -/
theorem c7_image_handler_ignores_other_arguments :
    (∀ (a : Args) (q k : String) (v : Option GoVal),
      k ∈ (["categories", "language", "time_range", "safe_search"] :
            List String) →
      imageParams (setArg a k v) q = imageParams a q) ∧
    (∀ (a : Args) (q : String),
      (imageParams a q).Categories = ["images"] ∧
      (imageParams a q).TimeRange = "") ∧
    (∀ (a : Args) (q : String), asString (a "engines") = none →
      (imageParams a q).Engines = ["google images"]) := by
  refine ⟨?_, ?_, ?_⟩
  · intro a q k v hk
    simp only [List.mem_cons, List.mem_singleton, List.not_mem_nil, or_false]
      at hk
    rcases hk with rfl | rfl | rfl | rfl <;>
      simp [imageParams_eq, setArg]
  · intro a q
    simp [imageParams_eq]
  · intro a q h
    simp [imageParams_eq, h]

/-- C5 witness: at the concrete argument map with
`categories = " general , news "`, `engines = "bing, brave"` and
`page = 2`, the coercion equations of the claim theorem apply and are
discharged at these inputs. -/
theorem c5_argument_coercion_witness :
    ((generalParams argsCoercion "dogs").Categories =
      if (" general , news " : String) = "" then ["general"]
      else (goSplitComma " general , news ").map goTrimSpace) ∧
    ((generalParams argsCoercion "dogs").Engines =
      if ("bing, brave" : String) = "" then ["google"]
      else (goSplitComma "bing, brave").map goTrimSpace) ∧
    ((imageParams argsCoercion "dogs").Engines =
      if ("bing, brave" : String) = "" then ["google images"]
      else (goSplitComma "bing, brave").map goTrimSpace) ∧
    (generalParams argsCoercion "dogs").PageNo = floatToInt 2 :=
  ⟨c5_argument_coercion.1 argsCoercion "dogs" " general , news " (by decide),
   c5_argument_coercion.2.1 argsCoercion "dogs" "bing, brave" (by decide),
   c5_argument_coercion.2.2.1 argsCoercion "dogs" "bing, brave" (by decide),
   c5_argument_coercion.2.2.2.2.1 argsCoercion "dogs" 2 (by decide)⟩

/-- C7 witness: a `categories` argument on the image-search tool call
leaves the constructed `SearchParams` unchanged, and with no `engines`
argument the engines are the default `["google images"]`. -/
theorem c7_image_handler_witness :
    imageParams (setArg argsOnlyQuery "categories"
      (some (GoVal.str "videos"))) "cats" = imageParams argsOnlyQuery "cats" ∧
    (imageParams argsOnlyQuery "cats").Engines = ["google images"] :=
  ⟨c7_image_handler_ignores_other_arguments.1 argsOnlyQuery "cats"
      "categories" (some (GoVal.str "videos")) (by decide),
   c7_image_handler_ignores_other_arguments.2.2 argsOnlyQuery "cats"
      (by decide)⟩

/-- C3: if the `query` argument is absent or not a string, each of the
three search handlers fails with the input error `"query must be a
string"` — for every stubbed backend, i.e. independently of any network
interaction — and an optional argument present with a wrong type is
ignored: overriding it with any wrongly-typed value gives the same
handler result as removing it. -/
theorem c3_required_query_and_wrong_type_ignored :
    (∀ (a : Args) (backend : SearchParams → Except String SearchResponse),
      asString (a "query") = none →
      searxngSearchHandler a backend = .error "query must be a string" ∧
      searxngImageSearchHandler a backend = .error "query must be a string" ∧
      searxngNewsSearchHandler a backend = .error "query must be a string") ∧
    (∀ (a : Args) (backend : SearchParams → Except String SearchResponse)
        (k : String) (v : GoVal),
      ((k ∈ (["categories", "engines", "language", "time_range"] :
               List String) ∧ isStr v = false) ∨
       (k ∈ (["page", "safe_search"] : List String) ∧ isNum v = false)) →
      searxngSearchHandler (setArg a k (some v)) backend =
        searxngSearchHandler (setArg a k none) backend) ∧
    (∀ (a : Args) (backend : SearchParams → Except String SearchResponse)
        (k : String) (v : GoVal),
      ((k = "engines" ∧ isStr v = false) ∨ (k = "page" ∧ isNum v = false)) →
      searxngImageSearchHandler (setArg a k (some v)) backend =
        searxngImageSearchHandler (setArg a k none) backend) ∧
    (∀ (a : Args) (backend : SearchParams → Except String SearchResponse)
        (k : String) (v : GoVal),
      ((k ∈ (["time_range", "language"] : List String) ∧ isStr v = false) ∨
       (k = "page" ∧ isNum v = false)) →
      searxngNewsSearchHandler (setArg a k (some v)) backend =
        searxngNewsSearchHandler (setArg a k none) backend) := by
  refine ⟨?_, ?_, ?_, ?_⟩
  · intro a backend h
    refine ⟨?_, ?_, ?_⟩ <;>
      simp [searxngSearchHandler, searxngImageSearchHandler,
        searxngNewsSearchHandler, h]
  · intro a backend k v h
    rcases h with ⟨hk, hv⟩ | ⟨hk, hv⟩
    · simp only [List.mem_cons, List.mem_singleton, List.not_mem_nil,
        or_false] at hk
      rcases hk with rfl | rfl | rfl | rfl <;>
        simp [searxngSearchHandler, generalParams_eq, setArg, asString_none,
          asString_of_not_str v hv]
    · simp only [List.mem_cons, List.mem_singleton, List.not_mem_nil,
        or_false] at hk
      rcases hk with rfl | rfl <;>
        simp [searxngSearchHandler, generalParams_eq, setArg, asNumber_none,
          asNumber_of_not_num v hv]
  · intro a backend k v h
    rcases h with ⟨rfl, hv⟩ | ⟨rfl, hv⟩
    · simp [searxngImageSearchHandler, imageParams_eq, setArg, asString_none,
        asString_of_not_str v hv]
    · simp [searxngImageSearchHandler, imageParams_eq, setArg, asNumber_none,
        asNumber_of_not_num v hv]
  · intro a backend k v h
    rcases h with ⟨hk, hv⟩ | ⟨rfl, hv⟩
    · simp only [List.mem_cons, List.mem_singleton, List.not_mem_nil,
        or_false] at hk
      rcases hk with rfl | rfl <;>
        simp [searxngNewsSearchHandler, newsParams_eq, setArg, asString_none,
          asString_of_not_str v hv]
    · simp [searxngNewsSearchHandler, newsParams_eq, setArg, asNumber_none,
        asNumber_of_not_num v hv]

/-- C3 witness: a missing `query` makes each handler fail with the
input error against an arbitrary stubbed backend, and wrongly-typed
`categories`/`page`/`language` arguments are ignored at concrete
inputs. -/
theorem c3_required_query_witness :
    searxngSearchHandler (fun _ => none) (fun _ => .error "stub") =
      .error "query must be a string" ∧
    searxngSearchHandler (setArg argsOnlyQuery "categories"
        (some (GoVal.num 1))) (fun _ => .error "stub") =
      searxngSearchHandler (setArg argsOnlyQuery "categories" none)
        (fun _ => .error "stub") ∧
    searxngImageSearchHandler (setArg argsOnlyQuery "page"
        (some (GoVal.str "two"))) (fun _ => .error "stub") =
      searxngImageSearchHandler (setArg argsOnlyQuery "page" none)
        (fun _ => .error "stub") ∧
    searxngNewsSearchHandler (setArg argsOnlyQuery "language"
        (some (GoVal.boolV true))) (fun _ => .error "stub") =
      searxngNewsSearchHandler (setArg argsOnlyQuery "language" none)
        (fun _ => .error "stub") :=
  ⟨(c3_required_query_and_wrong_type_ignored.1 (fun _ => none)
      (fun _ => .error "stub") rfl).1,
   c3_required_query_and_wrong_type_ignored.2.1 argsOnlyQuery
      (fun _ => .error "stub") "categories" (GoVal.num 1)
      (Or.inl ⟨by decide, by decide⟩),
   c3_required_query_and_wrong_type_ignored.2.2.1 argsOnlyQuery
      (fun _ => .error "stub") "page" (GoVal.str "two")
      (Or.inr ⟨rfl, by decide⟩),
   c3_required_query_and_wrong_type_ignored.2.2.2 argsOnlyQuery
      (fun _ => .error "stub") "language" (GoVal.boolV true)
      (Or.inl ⟨by decide, by decide⟩)⟩

theorem insertFieldByKey_perm (x : String × Json) :
    ∀ l : List (String × Json), (insertFieldByKey x l).Perm (x :: l)
  | [] => List.Perm.refl _
  | y :: ys => by
      unfold insertFieldByKey
      split
      · exact List.Perm.refl _
      · exact ((insertFieldByKey_perm x ys).cons y).trans
          (List.Perm.swap x y ys)

theorem sortFieldsByKey_perm :
    ∀ l : List (String × Json), (sortFieldsByKey l).Perm l
  | [] => List.Perm.refl _
  | x :: xs =>
      (insertFieldByKey_perm x (sortFieldsByKey xs)).trans
        ((sortFieldsByKey_perm xs).cons x)

/-- C2: when the general-search handler succeeds, its payload is the
two-space-indented JSON text of the curated response object, whose keys
are exactly `query`, `number_of_results` and `results` always, plus
`answers` / `suggestions` / `corrections` each iff the corresponding
backend list is non-empty, and never `infoboxes` (the serialized field
order is a permutation of the construction order: `encoding/json` sorts
the map keys). -/
theorem c2_general_payload_exact_keys
    (a : Args) (backend : SearchParams → Except String SearchResponse)
    (q : String) (r : SearchResponse)
    (hq : asString (a "query") = some q)
    (hb : backend (generalParams a q) = .ok r) :
    searxngSearchHandler a backend =
      .ok (jsonMarshalIndent
        (.obj (sortFieldsByKey (generalResponseFields r)))) ∧
    (generalResponseFields r).map Prod.fst =
      ["query", "number_of_results", "results"] ++
      (if r.Answers ≠ [] then ["answers"] else []) ++
      (if r.Suggestions ≠ [] then ["suggestions"] else []) ++
      (if r.Corrections ≠ [] then ["corrections"] else []) ∧
    ((sortFieldsByKey (generalResponseFields r)).map Prod.fst).Perm
      ((generalResponseFields r).map Prod.fst) ∧
    "infoboxes" ∉ (generalResponseFields r).map Prod.fst := by
  refine ⟨?_, ?_, (sortFieldsByKey_perm _).map _, ?_⟩
  · simp [searxngSearchHandler, hq, hb]
  · simp only [generalResponseFields]
    split_ifs <;> simp_all [List.length_pos]
  · simp only [generalResponseFields]
    split_ifs <;> simp

/-- C2 witness: for the concrete call `searxng_search(query="cats")`
against a stubbed backend returning `stubResponse`, the handler
produces exactly the serialized curated object. -/
theorem c2_general_payload_witness :
    searxngSearchHandler argsOnlyQuery (fun _ => .ok stubResponse) =
      .ok (jsonMarshalIndent
        (.obj (sortFieldsByKey (generalResponseFields stubResponse)))) :=
  (c2_general_payload_exact_keys argsOnlyQuery (fun _ => .ok stubResponse)
    "cats" stubResponse (by decide) rfl).1

/-- C8: the general-search handler is deterministic — two invocations
with identical argument maps, against stubbed backends returning
identical decoded 200 responses, produce identical serialized text
payloads (the handler is a pure function of the argument map and the
backend response; it reads no other state). -/
theorem c8_general_handler_deterministic
    (a1 a2 : Args) (r1 r2 : SearchResponse)
    (ha : a1 = a2) (hr : r1 = r2) :
    searxngSearchHandler a1 (fun _ => .ok r1) =
      searxngSearchHandler a2 (fun _ => .ok r2) := by
  subst ha; subst hr; rfl

/-- C8 witness: the determinism theorem applied at the concrete
argument map and stubbed response. -/
theorem c8_general_handler_deterministic_witness :
    searxngSearchHandler argsOnlyQuery (fun _ => .ok stubResponse) =
      searxngSearchHandler argsOnlyQuery (fun _ => .ok stubResponse) :=
  c8_general_handler_deterministic argsOnlyQuery argsOnlyQuery
    stubResponse stubResponse rfl rfl

/-- C6 counterexample: on a 500 response with body `"upstream error"`,
`GetEngines` fails with exactly `"HTTP error 500"` — the raw response
body text is NOT part of the error, contradicting the claim that
`GetEngines` has the same failure semantics as `Search` (status code
and body). -/
theorem c6_counterexample_engines_error_drops_body :
    getEnginesHandleResponse (fun _ => .error "decoder unused")
        { StatusCode := 500, Body := "upstream error" } =
      .error "HTTP error 500" ∧
    listContainsSub "HTTP error 500".data "upstream error".data = false := by
  exact ⟨rfl, by decide⟩

/-- C6 as amended: on any non-200 status, `GetEngines` fails with an
error carrying the status code only (`"HTTP error <code>"`), while
`Search` fails with an error carrying both the status code and the raw
body (`"HTTP error <code>: <body>"`). -/
theorem c6_amended_engines_error_status_only
    (decodeE : String → Except String Json)
    (decodeS : String → Except String SearchResponse)
    (resp : HTTPResponse) (h : resp.StatusCode ≠ 200) :
    getEnginesHandleResponse decodeE resp =
      .error ("HTTP error " ++ goItoa resp.StatusCode) ∧
    searchHandleResponse decodeS resp =
      .error ("HTTP error " ++ goItoa resp.StatusCode ++ ": " ++ resp.Body) := by
  constructor <;>
    simp [getEnginesHandleResponse, searchHandleResponse, h]

/-- C6 witness: the amended failure semantics at status 500 with body
`"upstream error"`. -/
theorem c6_amended_engines_error_witness :
    getEnginesHandleResponse (fun _ => .error "decoder unused")
        { StatusCode := 500, Body := "upstream error" } =
      .error ("HTTP error " ++ goItoa (500 : Int)) ∧
    searchHandleResponse (fun _ => .error "decoder unused")
        { StatusCode := 500, Body := "upstream error" } =
      .error ("HTTP error " ++ goItoa (500 : Int) ++ ": " ++ "upstream error") :=
  c6_amended_engines_error_status_only _ _
    { StatusCode := 500, Body := "upstream error" } (by decide)
